import Mathlib

/-!
Verification of the wire codec, command dispatcher, store operations and
connection-handling loop of `src/server.py` (a minimal Redis-like in-memory
key-value server, Python 3).

The embedding is shallow: Python runtime values that cross the codec and
dispatcher boundaries become the inductive type `PyVal`; Python exceptions
become the `PyErr` sum carried in `Except`; byte strings are `List Nat`
(each element a byte value 0..255); the shared dictionary `Server._kv`
becomes an insertion-ordered association list `Store`.  Every definition is
translated from the source, statement by statement, including its Python 3
dynamic-typing behaviour (several statements of the source raise built-in
exceptions such as `TypeError` or `AttributeError`; those are modelled
exactly where CPython 3 raises them, with a comment at each site giving the
source line and the reason).
-/

namespace BuildRedis

/-- Python values handled by the codec and the server: the exact set of
runtime types that `ProtocolHandler._write` (src/server.py lines 71-94)
dispatches on with `isinstance`: `str`, `bytes`, `int`, the `Error`
namedtuple (line 12, one field `message`), `list`/`tuple`, `dict`, and
`None`.  The `error` constructor models an `Error` instance; note that in
Python `Error` is a `tuple` subclass, but `_write` tests `Error` (line 80)
before `(list, tuple)` (line 82), so instances always take the `error`
branch.  Dicts in CPython 3.7+ preserve insertion order, so a dict is
carried as its ordered key/value pair list. -/
inductive PyVal where
  | str (s : String)
  | bytes (bs : List Nat)
  | int (n : Int)
  | error (message : PyVal)
  | list (xs : List PyVal)
  | dict (ps : List (PyVal × PyVal))
  | none

/-- Exceptions raised by the code under verification: the two classes the
source defines (`CommandError`, `Disconnect`, src/server.py lines 9-10) and
the Python built-ins its statements can raise. -/
inductive PyErr where
  | CommandError (msg : String)
  | Disconnect
  | TypeError
  | ValueError
  | AttributeError
  | UnicodeDecodeError
  | RecursionError
  deriving DecidableEq, Repr

/-- Encoding of one unicode code point as UTF-8 bytes (the effect of
Python's `str.encode('utf-8')` on one character). -/
def utf8Char (n : Nat) : List Nat :=
  if n < 0x80 then [n]
  else if n < 0x800 then [0xC0 + n / 64, 0x80 + n % 64]
  else if n < 0x10000 then
    [0xE0 + n / 4096, 0x80 + (n / 64) % 64, 0x80 + n % 64]
  else
    [0xF0 + n / 262144, 0x80 + (n / 4096) % 64, 0x80 + (n / 64) % 64,
      0x80 + n % 64]

/-- Python `s.encode('utf-8')`: the byte string encoding the text `s`. -/
def utf8 (s : String) : List Nat :=
  (s.data.map fun c => utf8Char c.toNat).flatten

/-- Lower-case hexadecimal digit byte for a value below 16 (as used by the
`\xhh` escapes of Python's `repr` of a bytes object). -/
def hexDigitByte (n : Nat) : Nat :=
  if n < 10 then 48 + n else 87 + n

/-- Escape of one byte inside Python's `repr` of a bytes object, given the
quote byte `q` chosen for the literal: backslash and the quote are
backslash-escaped, tab, LF and CR print as `\t`, `\n`, `\r`, other
printable ASCII bytes print as themselves, and everything else as `\xhh`
(lower-case hex). -/
def byteEscape (q b : Nat) : List Nat :=
  if b = 92 then [92, 92]
  else if b = q then [92, q]
  else if b = 9 then [92, 116]
  else if b = 10 then [92, 110]
  else if b = 13 then [92, 114]
  else if 32 ≤ b ∧ b ≤ 126 then [b]
  else [92, 120, hexDigitByte (b / 16), hexDigitByte (b % 16)]

/-- ASCII bytes of Python's `repr` (equivalently `str`) of a bytes object:
a `b` prefix, then the contents between quotes.  CPython quotes with `'`,
switching to `"` exactly when the bytes contain `'` but no `"`.  This is
what `'%s' % data` produces for `data : bytes` -- the formatted text is
pure ASCII, so its UTF-8 encoding is the same byte list. -/
def bytesReprB (bs : List Nat) : List Nat :=
  let q : Nat := if bs.contains 39 && !(bs.contains 34) then 34 else 39
  98 :: q :: ((bs.map (byteEscape q)).flatten ++ [q])

/-- Python `==` restricted to the values of `PyVal`: equal only within one
runtime type (in Python 3 `b'a' == 'a'` is `False`, `1 == '1'` is
`False`), containers compared element-wise in order, `Error` instances
(tuple subclass) compared field-wise. -/
def pyEq : PyVal → PyVal → Bool
  | .str a, .str b => a == b
  | .bytes a, .bytes b => a == b
  | .int a, .int b => a == b
  | .error a, .error b => pyEq a b
  | .list a, .list b => eqL a b
  | .dict a, .dict b => eqP a b
  | .none, .none => true
  | _, _ => false
where
  eqL : List PyVal → List PyVal → Bool
    | [], [] => true
    | x :: xs, y :: ys => pyEq x y && eqL xs ys
    | _, _ => false
  eqP : List (PyVal × PyVal) → List (PyVal × PyVal) → Bool
    | [], [] => true
    | (k1, v1) :: ps, (k2, v2) :: qs => pyEq k1 k2 && pyEq v1 v2 && eqP ps qs
    | _, _ => false

/-- Whether a value may be a dict key: Python `list` and `dict` are
unhashable (using one as a dict key raises `TypeError`); `str`, `bytes`,
`int` and `None` are hashable, and a namedtuple is hashable exactly when
its fields are. -/
def hashable : PyVal → Bool
  | .list _ => false
  | .dict _ => false
  | .error m => hashable m
  | _ => true

/-- Model of a CPython 3.7+ dict: an insertion-ordered association list
with pairwise-distinct keys.  `Server._kv` (src/server.py line 106) is
such a dict. -/
abbrev Store := List (PyVal × PyVal)

/-- Python `d.get(k)` / `d[k]` lookup on a dict modelled as `Store`
(hashability of `k` is checked by the callers that need it). -/
def dictGet : Store → PyVal → Option PyVal
  | [], _ => Option.none
  | (k2, v) :: rest, k => if pyEq k k2 then some v else dictGet rest k

/-- Python `d[k] = v`: replaces the value at an existing key in place
(keeping the key's insertion position and the original key object),
appends a new pair otherwise. -/
def dictSet : Store → PyVal → PyVal → Store
  | [], k, v => [(k, v)]
  | (k2, v2) :: rest, k, v =>
    if pyEq k k2 then (k2, v) :: rest else (k2, v2) :: dictSet rest k v

/-- Python `k in d`. -/
def dictHasKey : Store → PyVal → Bool
  | [], _ => false
  | (k2, _) :: rest, k => pyEq k k2 || dictHasKey rest k

/-- Python `del d[k]` for a key known to be present: removes the pair. -/
def dictDel : Store → PyVal → Store
  | [], _ => []
  | (k2, v2) :: rest, k =>
    if pyEq k k2 then rest else (k2, v2) :: dictDel rest k

/-! ### Wire codec: decode (`ProtocolHandler.handle_request` and the six
tag handlers, src/server.py lines 27-61)

The byte source `socket_file` is modelled as the list of bytes not yet
consumed; each reading step returns the bytes read together with the
remaining input. -/

/-- Python `socket_file.readline()` on a binary stream: the bytes up to
and including the first LF, or everything remaining when no LF follows. -/
def readline : List Nat → List Nat × List Nat
  | [] => ([], [])
  | b :: rest =>
    if b = 10 then ([10], rest)
    else
      let (l, r) := readline rest
      (b :: l, r)

/-- Semantics of the expression `line.rstrip('\r\n')` for `line : bytes`,
as written at src/server.py lines 38, 41, 44, 47, 54 and 58.  In Python 3
the stream opened by `conn.makefile('rwb')` (line 121) is binary, so
`readline()` returns `bytes`, and `bytes.rstrip` requires a bytes-like
argument: called with the `str` literal `'\r\n'` it raises
`TypeError: a bytes-like object is required, not 'str'` -- for every
receiver, before looking at its contents. -/
def bytesRstripStr (_line : List Nat) : Except PyErr (List Nat) :=
  Except.error PyErr.TypeError

/-- ASCII whitespace bytes stripped by Python `int()` from its argument. -/
def isSpaceByte (b : Nat) : Bool :=
  b = 9 || b = 10 || b = 11 || b = 12 || b = 13 || b = 32

/-- Digit run of a Python integer literal after the optional sign:
nonempty decimal digits, a single underscore allowed only between two
digits; returns the value, or `none` when the run is malformed. -/
def pyDigitsAux : Nat → Bool → List Nat → Option Nat
  | acc, true, [] => some acc
  | _, false, [] => Option.none
  | acc, prev, b :: rest =>
    if 48 ≤ b ∧ b ≤ 57 then pyDigitsAux (acc * 10 + (b - 48)) true rest
    else if b = 95 ∧ prev then pyDigitsAux acc false rest
    else Option.none

/-- Python `int(bs)` for `bs : bytes`: strips ASCII whitespace, accepts an
optional `+`/`-` sign and a decimal digit run, raises `ValueError`
otherwise. -/
def pyIntParse (bs : List Nat) : Except PyErr Int :=
  let t := ((bs.dropWhile isSpaceByte).reverse.dropWhile isSpaceByte).reverse
  match t with
  | 43 :: rest =>
    match pyDigitsAux 0 false rest with
    | some n => Except.ok (Int.ofNat n)
    | Option.none => Except.error PyErr.ValueError
  | 45 :: rest =>
    match pyDigitsAux 0 false rest with
    | some n => Except.ok (-(Int.ofNat n))
    | Option.none => Except.error PyErr.ValueError
  | rest =>
    match pyDigitsAux 0 false rest with
    | some n => Except.ok (Int.ofNat n)
    | Option.none => Except.error PyErr.ValueError

/-- `ProtocolHandler.handle_simple_string` (line 37-38):
`return socket_file.readline().rstrip('\r\n')`.  The `rstrip` call raises
`TypeError` (see `bytesRstripStr`), so this handler never returns. -/
def handle_simple_string (input : List Nat) : Except PyErr (PyVal × List Nat) := do
  let (line, r1) := readline input
  let stripped ← bytesRstripStr line
  pure (PyVal.bytes stripped, r1)

/-- `ProtocolHandler.handle_error` (lines 40-41):
`return Error(socket_file.readline().rstrip('\r\n'))`; the `rstrip` call
raises `TypeError` before the `Error` is built. -/
def handle_error (input : List Nat) : Except PyErr (PyVal × List Nat) := do
  let (line, r1) := readline input
  let stripped ← bytesRstripStr line
  pure (PyVal.error (PyVal.bytes stripped), r1)

/-- `ProtocolHandler.handle_integer` (lines 43-44):
`return int(socket_file.readline().rstrip('\r\n'))`; the `rstrip` call
raises `TypeError` before `int` is applied. -/
def handle_integer (input : List Nat) : Except PyErr (PyVal × List Nat) := do
  let (line, r1) := readline input
  let stripped ← bytesRstripStr line
  let n ← pyIntParse stripped
  pure (PyVal.int n, r1)

/-- `ProtocolHandler.handle_string` (lines 46-51): reads the length line
(the `rstrip` raises `TypeError` first, as above), `-1` would give the
null marker, otherwise `length += 2` and `read(length)[:-2]`.  Python
`file.read(n)` with `n < 0` reads everything remaining, and `xs[:-2]`
drops the final two bytes. -/
def handle_string (input : List Nat) : Except PyErr (PyVal × List Nat) := do
  let (line, r1) := readline input
  let stripped ← bytesRstripStr line
  let length ← pyIntParse stripped
  if length = -1 then
    pure (PyVal.none, r1)
  else
    let count := length + 2
    let chunk := if count < 0 then r1 else r1.take count.toNat
    let r2 := if count < 0 then [] else r1.drop count.toNat
    pure (PyVal.bytes (chunk.take (chunk.length - 2)), r2)

/-- Python `xs[::2]`: the elements at even indices. -/
def evens : List PyVal → List PyVal
  | [] => []
  | [x] => [x]
  | x :: _ :: rest => x :: evens rest

/-- Python `xs[1::2]`: the elements at odd indices. -/
def odds : List PyVal → List PyVal
  | [] => []
  | [_] => []
  | _ :: y :: rest => y :: odds rest

/-- Python `dict(zip(ks, vs))` built left to right on top of `acc`:
inserts each pair in order (`zip` stops at the shorter sequence), raising
`TypeError` on an unhashable key. -/
def dictFromSeq (acc : Store) : List PyVal → List PyVal → Except PyErr Store
  | k :: ks, v :: vs =>
    if hashable k then dictFromSeq (dictSet acc k v) ks vs
    else Except.error PyErr.TypeError
  | _, _ => Except.ok acc

mutual

/-- `ProtocolHandler.handle_request` (lines 27-35) as a decoder over the
not-yet-consumed bytes.  An empty read raises `Disconnect` (line 31); a
single byte at or above `0x80` makes `read(1).decode("utf-8")` raise
`UnicodeDecodeError` (line 28); a known tag byte dispatches through the
`handlers` table built at lines 18-25; an unknown tag misses the table,
and the `except KeyError` at lines 32-35 turns that into
`CommandError('Bad Request')`.  (That `try` also spans the handler call,
but no handler can raise a bare `KeyError`: each raises `TypeError` at
its `rstrip`, and a nested bad tag has already become a `CommandError`,
so the conversion applies exactly to the table miss.)  The `fuel` argument models CPython's
recursion limit (`sys.getrecursionlimit()`, 1000 by default): the nested
decoding of `*`/`%` elements is the only recursion, and exceeding the
limit raises `RecursionError`.  Reachable behaviour does not depend on
the fuel, because every handler raises `TypeError` at its `rstrip` call
before recursing. -/
def handleReqF (fuel : Nat) (input : List Nat) : Except PyErr (PyVal × List Nat) :=
  match input with
  | [] => Except.error PyErr.Disconnect
  | b :: rest =>
    if 128 ≤ b then Except.error PyErr.UnicodeDecodeError
    else if b = 43 then handle_simple_string rest
    else if b = 45 then handle_error rest
    else if b = 58 then handle_integer rest
    else if b = 36 then handle_string rest
    else if b = 42 then handle_array fuel rest
    else if b = 37 then handle_dict fuel rest
    else Except.error (PyErr.CommandError "Bad Request")
termination_by (fuel, 2, 0)

/-- `ProtocolHandler.handle_array` (lines 53-55): reads the count line
(the `rstrip` raises `TypeError` first), then decodes that many elements
recursively.  `range(n)` of a negative count runs zero iterations. -/
def handle_array (fuel : Nat) (input : List Nat) : Except PyErr (PyVal × List Nat) := do
  let (line, r1) := readline input
  let stripped ← bytesRstripStr line
  let n ← pyIntParse stripped
  let (vs, r2) ← decodeN fuel n.toNat r1
  pure (PyVal.list vs, r2)
termination_by (fuel, 1, 0)

/-- `ProtocolHandler.handle_dict` (lines 57-61): reads the pair-count line
(the `rstrip` raises `TypeError` first), decodes `2 * n` values
recursively, and builds the dict pairing them positionally
(`dict(zip(elements[::2], elements[1::2]))`): an unhashable key raises
`TypeError`; a duplicate key keeps its first position with the later
value. -/
def handle_dict (fuel : Nat) (input : List Nat) : Except PyErr (PyVal × List Nat) := do
  let (line, r1) := readline input
  let stripped ← bytesRstripStr line
  let n ← pyIntParse stripped
  let (vs, r2) ← decodeN fuel (n.toNat * 2) r1
  let ps ← dictFromSeq [] (evens vs) (odds vs)
  pure (PyVal.dict ps, r2)
termination_by (fuel, 1, 0)

/-- The decoding loop shared by `handle_array` and `handle_dict`
(`[self.handle_request(socket_file) for _ in range(n)]`): `n` recursive
`handle_request` calls in sequence, each consuming one fuel step. -/
def decodeN : Nat → Nat → List Nat → Except PyErr (List PyVal × List Nat)
  | _, 0, input => Except.ok ([], input)
  | 0, _ + 1, _ => Except.error PyErr.RecursionError
  | f + 1, m + 1, input => do
      let (v, r) ← handleReqF f input
      let (vs, r2) ← decodeN (f + 1) m r
      pure (v :: vs, r2)
termination_by fuel n _ => (fuel, 0, n)

end

/-- The decoder at the default CPython recursion limit; reachable results
do not depend on the limit (see `handleReqF`). -/
def handle_request (input : List Nat) : Except PyErr (PyVal × List Nat) :=
  handleReqF 1000 input

/-! ### Wire codec: encode (`ProtocolHandler._write` and `write_response`,
src/server.py lines 63-94) -/

/-- Text produced by `'%s' % Error.message` at src/server.py line 81.
The expression names `Error.message`, the CLASS attribute of the
namedtuple `Error` -- the field-descriptor object -- not `data.message`,
the instance's field.  CPython 3.11 formats that descriptor as the text
below; the exact text varies across CPython versions (3.8's prints as
`<_collections._tuplegetter object at 0x...>`, address included), but it
never depends on the `Error` instance being encoded, and no theorem in
this file depends on this definition's particular value. -/
def errorFieldRepr : String := "_tuplegetter(0, 'Alias for field number 0')"

/-- The bulk-string branch of `_write` (line 77):
`buffer.write(('$%s\r\n%s\r\n' % (len(data), data)).encode())` for
`data : bytes`.  The `%s` conversion of a bytes object inserts its
`repr` text (`b'...'`), not its raw bytes, so the emitted payload is the
ASCII repr while the length prefix counts the raw bytes. -/
def bulkBytes (bs : List Nat) : List Nat :=
  utf8 ("$" ++ toString bs.length ++ "\r\n") ++ bytesReprB bs ++ utf8 "\r\n"

/-- `ProtocolHandler._write` (lines 71-94): the bytes appended to the
response buffer for one value.  A `str` is first replaced by its UTF-8
encoding (lines 72-74) and then taken by the `bytes` branch; `int` emits
`:%s`; an `Error` instance emits `-` followed by `errorFieldRepr`
(line 81 formats the class attribute `Error.message`, see above) --
ignoring the instance's message; `list`/`tuple` emits `*%s` and the
elements recursively (`Error` instances are tuples but are matched by
the earlier `Error` branch); `dict` emits `%%%s` and the pairs in
insertion order; `None` emits `$-1`.  Nothing else inhabits `PyVal`, so
the final `raise CommandError('unrecognized type: ...')` branch
(line 94) has no model.  `_write` itself never raises. -/
def _write : PyVal → List Nat
  | .str s => bulkBytes (utf8 s)
  | .bytes bs => bulkBytes bs
  | .int n => utf8 (":" ++ toString n ++ "\r\n")
  | .error _ => utf8 ("-" ++ errorFieldRepr ++ "\r\n")
  | .list xs => utf8 ("*" ++ toString xs.length ++ "\r\n") ++ writeElems xs
  | .dict ps => utf8 ("%" ++ toString ps.length ++ "\r\n") ++ writePairs ps
  | .none => utf8 "$-1\r\n"
where
  writeElems : List PyVal → List Nat
    | [] => []
    | x :: xs => _write x ++ writeElems xs
  writePairs : List (PyVal × PyVal) → List Nat
    | [] => []
    | (k, v) :: ps => _write k ++ _write v ++ writePairs ps

/-- `ProtocolHandler.write_response` (lines 63-68): `_write` serializes
into a `BytesIO` buffer, whose whole contents are then written to the
socket file and flushed -- the bytes reaching the wire are exactly the
bytes `_write` produced. -/
def write_response (data : PyVal) : List Nat := _write data

/-! ### Store operations (`Server.get/set/delete/flush/mget/mset`,
src/server.py lines 153-178)

Each operation takes the current `_kv` dict and returns the Python result
(or the exception raised) together with the dict after the call --
mutations that happened before an exception persist. -/

/-- `Server.get` (lines 153-154): `return self._kv.get(key)` -- the
stored value, or `None` when the key is missing; an unhashable key makes
`dict.get` raise `TypeError`.  The dict is not modified in any case. -/
def Server.get (kv : Store) (key : PyVal) : Except PyErr PyVal × Store :=
  ((if hashable key then Except.ok ((dictGet kv key).getD PyVal.none)
    else Except.error PyErr.TypeError), kv)

/-- `Server.set` (lines 156-158): `self._kv[key] = value; return 1`. -/
def Server.set (kv : Store) (key value : PyVal) : Except PyErr PyVal × Store :=
  if hashable key then (Except.ok (PyVal.int 1), dictSet kv key value)
  else (Except.error PyErr.TypeError, kv)

/-- `Server.delete` (lines 160-164): removes a present key and returns 1,
returns 0 otherwise; `key in self._kv` raises `TypeError` on an
unhashable key. -/
def Server.delete (kv : Store) (key : PyVal) : Except PyErr PyVal × Store :=
  if hashable key then
    if dictHasKey kv key then (Except.ok (PyVal.int 1), dictDel kv key)
    else (Except.ok (PyVal.int 0), kv)
  else (Except.error PyErr.TypeError, kv)

/-- `Server.flush` (lines 166-169): remembers `len(self._kv)`, clears the
dict, returns the remembered length. -/
def Server.flush (kv : Store) : Except PyErr PyVal × Store :=
  (Except.ok (PyVal.int kv.length), [])

/-- The list comprehension of `Server.mget` (line 172):
`[self._kv.get(key) for key in keys]`; an unhashable key raises
`TypeError` part-way (the comprehension's partial list is discarded). -/
def mgetLoop (kv : Store) : List PyVal → Except PyErr (List PyVal)
  | [] => Except.ok []
  | k :: ks =>
    if hashable k then do
      let vs ← mgetLoop kv ks
      pure ((dictGet kv k).getD PyVal.none :: vs)
    else Except.error PyErr.TypeError

/-- `Server.mget` (lines 171-172): the per-key lookups in input order;
never modifies the dict. -/
def Server.mget (kv : Store) (keys : List PyVal) : Except PyErr PyVal × Store :=
  ((mgetLoop kv keys).map PyVal.list, kv)

/-- The write loop of `Server.mset` (lines 176-177): inserts the zipped
pairs left to right; an unhashable key raises `TypeError` there, keeping
the writes already made. -/
def msetWrites (kv : Store) : List (PyVal × PyVal) → Store × Option PyErr
  | [] => (kv, Option.none)
  | (k, v) :: rest =>
    if hashable k then msetWrites (dictSet kv k v) rest
    else (kv, some PyErr.TypeError)

/-- `Server.mset` (lines 174-178): `data = zip(items[::2], items[1::2])`
pairs the arguments positionally (`zip` silently drops an unmatched odd
final argument); the loop writes every pair into the dict; then
`return len(data)` raises `TypeError: object of type 'zip' has no len()`
-- Python 3 `zip` objects do not support `len`.  So `mset` always raises,
and the writes persist. -/
def Server.mset (kv : Store) (items : List PyVal) : Except PyErr PyVal × Store :=
  let pairs := (evens items).zip (odds items)
  match msetWrites kv pairs with
  | (kv2, some e) => (Except.error e, kv2)
  | (kv2, Option.none) => (Except.error PyErr.TypeError, kv2)

/-! ### Command dispatch (`Server.get_commands`, `Server.get_response`,
src/server.py lines 109-151) -/

/-- The closed set of command names, the keys of the dict built by
`Server.get_commands` (lines 109-117). -/
inductive Cmd where
  | GET
  | SET
  | DELETE
  | FLUSH
  | MGET
  | MSET
  deriving DecidableEq, Repr

/-- The name-to-operation table of `Server.get_commands` (lines 109-117):
a dict with `str` keys. -/
def get_commands : List (String × Cmd) :=
  [("GET", Cmd.GET), ("SET", Cmd.SET), ("DELETE", Cmd.DELETE),
   ("FLUSH", Cmd.FLUSH), ("MGET", Cmd.MGET), ("MSET", Cmd.MSET)]

/-- Result type of `data[0].upper()`: a `str` or a `bytes` receiver gives
back the same type upper-cased. -/
inductive CmdText where
  | ustr (s : String)
  | ubytes (bs : List Nat)

/-- Upper-casing of one ASCII character code (all inputs relevant here
are ASCII; Python's `upper` on non-ASCII text differs but no command
name involves it). -/
def upperByte (b : Nat) : Nat :=
  if 97 ≤ b ∧ b ≤ 122 then b - 32 else b

/-- Python `s.upper()` for an ASCII `str`. -/
def pyUpperStr (s : String) : String :=
  String.mk (s.data.map fun c => Char.ofNat (upperByte c.toNat))

/-- `data[0].upper()` (line 147): `str` and `bytes` objects have an
`upper` method; `int`, `Error`, `list`, `dict` and `None` do not, so the
attribute lookup raises `AttributeError` -- outside any `try`, hence
propagating out of `get_response`. -/
def pyUpper : PyVal → Except PyErr CmdText
  | .str s => Except.ok (CmdText.ustr (pyUpperStr s))
  | .bytes bs => Except.ok (CmdText.ubytes (bs.map upperByte))
  | _ => Except.error PyErr.AttributeError

/-- Lookup of `command` in `self._commands` (line 148): the dict's keys
are the six `str` names, so a `bytes` command never matches (in Python 3
`b'GET' == 'GET'` is `False`). -/
def cmdLookup : CmdText → Option Cmd
  | CmdText.ustr s => (get_commands.find? fun p => p.1 == s).map Prod.snd
  | CmdText.ubytes _ => Option.none

/-- Text of an ASCII byte list (used to render `'%s' % command` when the
command is a bytes object: its `repr`, which is pure ASCII). -/
def strOfAscii (bs : List Nat) : String :=
  String.mk (bs.map Char.ofNat)

/-- Text inserted by `'Unrecognized command: %s' % command` (line 149):
a `str` command inserts itself, a `bytes` command inserts its repr. -/
def cmdTextFormat : CmdText → String
  | CmdText.ustr s => s
  | CmdText.ubytes bs => strOfAscii (bytesReprB bs)

/-- Whitespace splitting shared by Python `str.split()` and
`bytes.split()` with no argument: maximal runs of non-separator elements,
separator runs collapsed, no empty words. -/
def splitRuns {α : Type} (isSep : α → Bool) : List α → List (List α)
  | [] => []
  | c :: rest =>
    if isSep c then splitRuns isSep rest
    else
      match rest with
      | [] => [[c]]
      | d :: _ =>
        if isSep d then [c] :: splitRuns isSep rest
        else
          match splitRuns isSep rest with
          | [] => [[c]]
          | w :: ws => (c :: w) :: ws

/-- Whether a character is ASCII whitespace for `str.split()`. -/
def isSpaceChar (c : Char) : Bool :=
  isSpaceByte c.toNat

/-- Python `s.split()` for a `str` (ASCII whitespace). -/
def pySplit (s : String) : List String :=
  (splitRuns isSpaceChar s.data).map String.mk

/-- Python `bs.split()` for `bytes`. -/
def bytesSplit (bs : List Nat) : List (List Nat) :=
  splitRuns isSpaceByte bs

/-- Dispatch of `self._commands[command](*data[1:])` (line 151): the
bound methods have exact positional signatures `get(key)`,
`set(key, value)`, `delete(key)` and `flush()`, while `mget(*keys)` and
`mset(*items)` are variadic.  A call with the wrong argument count
raises `TypeError` (missing or extra positional arguments) -- a Python
built-in exception, not a `CommandError`. -/
def runCommand (c : Cmd) (kv : Store) (args : List PyVal) : Except PyErr PyVal × Store :=
  match c, args with
  | Cmd.GET, [k] => Server.get kv k
  | Cmd.SET, [k, v] => Server.set kv k v
  | Cmd.DELETE, [k] => Server.delete kv k
  | Cmd.FLUSH, [] => Server.flush kv
  | Cmd.MGET, ks => Server.mget kv ks
  | Cmd.MSET, items => Server.mset kv items
  | _, _ => (Except.error PyErr.TypeError, kv)

/-- `Server.get_response` (lines 137-151).  A non-list request is
replaced by `data.split()` (lines 138-142): `str` and `bytes` both have
`split`; for every other type the attribute error is swallowed by the
bare `except` and re-raised as
`CommandError('Request must be list or simple string.')`.  An empty
request list raises `CommandError('Missing command')` (lines 144-145).
`data[0].upper()` may raise `AttributeError` (line 147, uncaught).  An
upper-cased name missing from the command table raises
`CommandError('Unrecognized command: %s')` (lines 148-149).  Otherwise
the operation runs with the remaining arguments (line 151). -/
def get_response (kv : Store) (data : PyVal) : Except PyErr PyVal × Store :=
  let elems : Except PyErr (List PyVal) :=
    match data with
    | PyVal.list xs => Except.ok xs
    | PyVal.str s => Except.ok ((pySplit s).map PyVal.str)
    | PyVal.bytes bs => Except.ok ((bytesSplit bs).map PyVal.bytes)
    | _ => Except.error (PyErr.CommandError "Request must be list or simple string.")
  match elems with
  | Except.error e => (Except.error e, kv)
  | Except.ok [] => (Except.error (PyErr.CommandError "Missing command"), kv)
  | Except.ok (x :: args) =>
    match pyUpper x with
    | Except.error e => (Except.error e, kv)
    | Except.ok ct =>
      match cmdLookup ct with
      | Option.none =>
        (Except.error (PyErr.CommandError ("Unrecognized command: " ++ cmdTextFormat ct)), kv)
      | some c => runCommand c kv args

/-! ### Connection handler (`Server.connection_handler`,
src/server.py lines 119-135) -/

/-- Outcome of one iteration of the handler's `while True` loop for one
client connection.  `closed`: the read raised `Disconnect` and the loop
`break`s -- clean end of stream, nothing written.  `fatal e`: an
exception other than `Disconnect`/`CommandError`-at-dispatch escaped the
iteration; it propagates out of `connection_handler`, the gevent-spawned
handler dies and the connection closes with nothing written for this
request.  `wrote`: a response was serialized and flushed to the client,
and the loop continues on the remaining input with the possibly-updated
store. -/
inductive StepOutcome where
  | closed
  | fatal (e : PyErr)
  | wrote (response : List Nat) (remaining : List Nat) (kv : Store)

/-- Lines 130-135 of `Server.connection_handler`: the dispatch-and-respond
half of one iteration, entered with the successfully decoded request
value.  Line 131 reads `res = self.get_resonse(data)`: the `Server`
class defines no attribute `get_resonse` (its dispatch method, lines
137-151, is spelled `get_response`; the class's attributes are the
methods defined at lines 97-181 plus `_pool`, `_server`, `_protocol`,
`_kv`, `_commands`), so the attribute lookup raises `AttributeError`
before any dispatch happens; the `except CommandError` clause at line
132 catches only `CommandError`, so the exception escapes and neither
`get_response` nor `write_response` ever runs on this path. -/
def connection_body (_kv : Store) (_data : PyVal) (_remaining : List Nat) : StepOutcome :=
  StepOutcome.fatal PyErr.AttributeError

/-- One iteration of the `while True` loop of `connection_handler`
(lines 124-135): read one request with `handle_request` -- only
`Disconnect` is caught there (lines 125-128), any other exception is
fatal to the connection -- then dispatch and respond (`connection_body`). -/
def connection_step (kv : Store) (input : List Nat) : StepOutcome :=
  match handle_request input with
  | Except.error PyErr.Disconnect => StepOutcome.closed
  | Except.error e => StepOutcome.fatal e
  | Except.ok (data, remaining) => connection_body kv data remaining

/-! ### Helper lemmas -/

/-- Propagation of a raised exception through a sequenced computation. -/
@[simp] theorem error_bind {α β : Type} (e : PyErr) (f : α → Except PyErr β) :
    (Except.error e >>= f : Except PyErr β) = Except.error e := rfl

/-- Propagation of a raised exception through a mapped computation. -/
@[simp] theorem error_map {α β : Type} (e : PyErr) (f : α → β) :
    (f <$> (Except.error e : Except PyErr α)) = Except.error e := rfl

example : bytesReprB (utf8 "hi") = utf8 "b'hi'" := by decide
example : bytesReprB [13, 10] = [98, 39, 92, 114, 92, 110, 39] := by decide

/-- UTF-8 encoding distributes over text concatenation. -/
theorem utf8_append (a b : String) : utf8 (a ++ b) = utf8 a ++ utf8 b := by
  simp [utf8, String.data_append]

@[simp] theorem utf8_dollar : utf8 "$" = [36] := rfl

@[simp] theorem utf8_colon : utf8 ":" = [58] := rfl

@[simp] theorem utf8_dash : utf8 "-" = [45] := rfl

@[simp] theorem utf8_star : utf8 "*" = [42] := rfl

@[simp] theorem utf8_pct : utf8 "%" = [37] := rfl

/-- Every invocation of `handle_simple_string` raises `TypeError`: the
`rstrip` of line 38 fails before anything else happens. -/
theorem handle_simple_string_raises (input : List Nat) :
    handle_simple_string input = Except.error PyErr.TypeError := by
  unfold handle_simple_string
  obtain ⟨l, r⟩ := readline input
  rfl

/-- Every invocation of `handle_error` raises `TypeError` (line 41). -/
theorem handle_error_raises (input : List Nat) :
    handle_error input = Except.error PyErr.TypeError := by
  unfold handle_error
  obtain ⟨l, r⟩ := readline input
  rfl

/-- Every invocation of `handle_integer` raises `TypeError` (line 44). -/
theorem handle_integer_raises (input : List Nat) :
    handle_integer input = Except.error PyErr.TypeError := by
  unfold handle_integer
  obtain ⟨l, r⟩ := readline input
  rfl

/-- Every invocation of `handle_string` raises `TypeError` (line 47). -/
theorem handle_string_raises (input : List Nat) :
    handle_string input = Except.error PyErr.TypeError := by
  unfold handle_string
  obtain ⟨l, r⟩ := readline input
  rfl

/-- Every invocation of `handle_array` raises `TypeError` (line 54). -/
theorem handle_array_raises (fuel : Nat) (input : List Nat) :
    handle_array fuel input = Except.error PyErr.TypeError := by
  unfold handle_array
  obtain ⟨l, r⟩ := readline input
  rfl

/-- Every invocation of `handle_dict` raises `TypeError` (line 58). -/
theorem handle_dict_raises (fuel : Nat) (input : List Nat) :
    handle_dict fuel input = Except.error PyErr.TypeError := by
  unfold handle_dict
  obtain ⟨l, r⟩ := readline input
  rfl

/-- Tag dispatch of the decoder: `$`. -/
theorem handle_request_dollar (rest : List Nat) :
    handle_request (36 :: rest) = handle_string rest := by
  simp [handle_request, handleReqF]

/-- Tag dispatch of the decoder: `:`. -/
theorem handle_request_colon (rest : List Nat) :
    handle_request (58 :: rest) = handle_integer rest := by
  simp [handle_request, handleReqF]

/-- Tag dispatch of the decoder: `-`. -/
theorem handle_request_dash (rest : List Nat) :
    handle_request (45 :: rest) = handle_error rest := by
  simp [handle_request, handleReqF]

/-- Tag dispatch of the decoder: `+`. -/
theorem handle_request_plus (rest : List Nat) :
    handle_request (43 :: rest) = handle_simple_string rest := by
  simp [handle_request, handleReqF]

/-- Tag dispatch of the decoder: `*`. -/
theorem handle_request_star (rest : List Nat) :
    handle_request (42 :: rest) = handle_array 1000 rest := by
  simp [handle_request, handleReqF]

/-- Tag dispatch of the decoder: `%`. -/
theorem handle_request_pct (rest : List Nat) :
    handle_request (37 :: rest) = handle_dict 1000 rest := by
  simp [handle_request, handleReqF]

/-! ### The claims -/

/-- C1.  The claimed codec round-trip `decode(encode(v)) == v` fails for
every value: decoding the encoding of any `PyVal` raises `TypeError`,
because each tag handler's first step, `readline().rstrip('\r\n')`,
calls `bytes.rstrip` with a `str` argument (Python 3).  In particular
`decode(encode(Integer 5))` raises instead of returning `Integer 5`. -/
theorem roundtrip_always_raises :
    ∀ v : PyVal, handle_request (_write v) = Except.error PyErr.TypeError := by
  intro v
  cases v with
  | str s =>
    simp only [_write, bulkBytes, utf8_append, utf8_dollar, List.singleton_append,
      List.cons_append, List.append_assoc]
    rw [handle_request_dollar, handle_string_raises]
  | bytes bs =>
    simp only [_write, bulkBytes, utf8_append, utf8_dollar, List.singleton_append,
      List.cons_append, List.append_assoc]
    rw [handle_request_dollar, handle_string_raises]
  | int n =>
    simp only [_write, utf8_append, utf8_colon, List.singleton_append,
      List.cons_append, List.append_assoc]
    rw [handle_request_colon, handle_integer_raises]
  | error m =>
    simp only [_write, utf8_append, utf8_dash, List.singleton_append,
      List.cons_append, List.append_assoc]
    rw [handle_request_dash, handle_error_raises]
  | list xs =>
    simp only [_write, utf8_append, utf8_star, List.singleton_append,
      List.cons_append, List.append_assoc]
    rw [handle_request_star, handle_array_raises]
  | dict ps =>
    simp only [_write, utf8_append, utf8_pct, List.singleton_append,
      List.cons_append, List.append_assoc]
    rw [handle_request_pct, handle_dict_raises]
  | none =>
    rw [show _write PyVal.none = 36 :: utf8 "-1\r\n" from rfl]
    rw [handle_request_dollar, handle_string_raises]

/-- C2.  No request ever receives a response: after a successful decode
the handler executes `res = self.get_resonse(data)` (line 131), whose
attribute lookup raises `AttributeError` (the method is spelled
`get_response`), uncaught by the `except CommandError` clause -- so one
loop iteration never reaches `write_response`, for any store state and
any input bytes. -/
theorem no_response_before_next_read :
    (∀ (kv : Store) (data : PyVal) (rem : List Nat),
        connection_body kv data rem = StepOutcome.fatal PyErr.AttributeError) ∧
    (∀ (kv : Store) (input resp rem : List Nat) (kv2 : Store),
        connection_step kv input ≠ StepOutcome.wrote resp rem kv2) := by
  refine ⟨fun _ _ _ => rfl, ?_⟩
  intro kv input resp rem kv2 h
  unfold connection_step connection_body at h
  split at h <;> exact StepOutcome.noConfusion h

/-- C3.  Encoding an `Error` value does not produce `-` followed by the
instance's message: line 81 formats the class attribute `Error.message`
(the field descriptor), so the emitted bytes are the same for every
message, and in particular `Error("oops")` does not encode to
`-oops\r\n`. -/
theorem error_encoding_ignores_message :
    (∀ m1 m2 : PyVal, _write (PyVal.error m1) = _write (PyVal.error m2)) ∧
    _write (PyVal.error (PyVal.str "oops")) ≠ utf8 "-oops\r\n" :=
  ⟨fun _ _ => rfl, by decide⟩

/-- C4.  `MSET("a","1","b","2")` writes both pairs into the store but
then raises `TypeError` instead of returning `Integer(2)`: line 178
calls `len` on a Python 3 `zip` object; moreover `mset` never returns
normally on any input. -/
theorem mset_always_raises :
    (∀ kv : Store,
      Server.mset kv [PyVal.str "a", PyVal.str "1", PyVal.str "b", PyVal.str "2"] =
        (Except.error PyErr.TypeError,
          dictSet (dictSet kv (PyVal.str "a") (PyVal.str "1"))
            (PyVal.str "b") (PyVal.str "2"))) ∧
    (∀ (kv : Store) (items : List PyVal) (res : PyVal),
        (Server.mset kv items).1 ≠ Except.ok res) := by
  refine ⟨fun _ => rfl, ?_⟩
  intro kv items res h
  simp only [Server.mset] at h
  rcases hw : msetWrites kv ((evens items).zip (odds items)) with ⟨kv2, e⟩
  rw [hw] at h
  cases e <;> exact Except.noConfusion h

/-- C5.  Dispatching the unknown command name `FOO` does raise
`CommandError('Unrecognized command: FOO')` in `get_response`
(lines 147-149), but the connection handler never sends it as an Error
value: line 131 invokes the misspelled `self.get_resonse`, so every
post-decode iteration dies with `AttributeError` before dispatch, and
the connection closes instead of staying usable. -/
theorem unknown_command_raises_commanderror :
    (∀ kv : Store,
      get_response kv (PyVal.list [PyVal.str "FOO"]) =
        (Except.error (PyErr.CommandError "Unrecognized command: FOO"), kv)) ∧
    (∀ (kv : Store) (data : PyVal) (rem : List Nat),
        connection_body kv data rem = StepOutcome.fatal PyErr.AttributeError) :=
  ⟨fun _ => rfl, fun _ _ _ => rfl⟩

/-- C6.  A store operation invoked with the wrong number of arguments
does not fail with a `CommandError`: the dispatch
`self._commands[command](*data[1:])` (line 151) raises the Python
built-in `TypeError` (missing or extra positional arguments), which the
`except CommandError` clause of the connection handler would not catch
-- shown here for GET with zero and with two arguments and SET with
one. -/
theorem wrong_arity_raises_typeerror :
    ∀ kv : Store,
      get_response kv (PyVal.list [PyVal.str "GET"]) =
        (Except.error PyErr.TypeError, kv) ∧
      get_response kv
          (PyVal.list [PyVal.str "GET", PyVal.str "a", PyVal.str "b"]) =
        (Except.error PyErr.TypeError, kv) ∧
      get_response kv (PyVal.list [PyVal.str "SET", PyVal.str "k"]) =
        (Except.error PyErr.TypeError, kv) ∧
      (∀ m : String, PyErr.TypeError ≠ PyErr.CommandError m) :=
  fun _ => ⟨rfl, rfl, rfl, fun _ => PyErr.noConfusion⟩

/-- C7.  The bulk-string header `$abc\r\n` is a fatal decode failure:
`handle_request` raises an exception other than `Disconnect`
(`TypeError`), so the connection handler's loop is left without writing
anything and the connection closes with no response for that request. -/
theorem malformed_length_is_fatal :
    handle_request (utf8 "$abc\r\n") = Except.error PyErr.TypeError ∧
    (∀ kv : Store,
        connection_step kv (utf8 "$abc\r\n") = StepOutcome.fatal PyErr.TypeError) ∧
    PyErr.TypeError ≠ PyErr.Disconnect := by
  have hd : handle_request (utf8 "$abc\r\n") = Except.error PyErr.TypeError := by
    rw [show utf8 "$abc\r\n" = 36 :: utf8 "abc\r\n" from rfl]
    rw [handle_request_dollar, handle_string_raises]
  refine ⟨hd, fun kv => ?_, by decide⟩
  unfold connection_step
  rw [hd]

/-- C8.  `Server.get` is total on hashable keys (every key a decoded
request can supply is a byte string, hence hashable): it returns the
stored value when the key is present and the absent marker `None`
(encoded on the wire as the null bulk string `$-1`) when it is missing,
and never raises or returns an `Error`. -/
theorem get_never_fails :
    ∀ (kv : Store) (key : PyVal), hashable key = true →
      Server.get kv key = (Except.ok ((dictGet kv key).getD PyVal.none), kv) ∧
      (∀ v, dictGet kv key = some v → (Server.get kv key).1 = Except.ok v) ∧
      (dictGet kv key = Option.none → (Server.get kv key).1 = Except.ok PyVal.none) ∧
      (∀ e, (Server.get kv key).1 ≠ Except.error e) := by
  intro kv key h
  refine ⟨by simp [Server.get, h], ?_, ?_, ?_⟩
  · intro v hv; simp [Server.get, h, hv]
  · intro hv; simp [Server.get, h, hv]
  · intro e; simp [Server.get, h]

/-- Witness for C8 at a concrete store and key: `GET` on the one-entry
store maps `"a"` to its stored value. -/
theorem get_never_fails_witness :
    (Server.get [(PyVal.str "a", PyVal.str "1")] (PyVal.str "a")).1 =
      Except.ok (PyVal.str "1") :=
  (get_never_fails [(PyVal.str "a", PyVal.str "1")] (PyVal.str "a") rfl).2.1
    (PyVal.str "1") rfl

/-- C9.  A text value is encoded with the `$` tag (never `+`) and a
UTF-8 byte-count length prefix, but the emitted payload is Python's
`repr` of the UTF-8 bytes rather than the bytes themselves:
`_write("hi")` emits `$2\r\nb'hi'\r\n` (payload `b'hi'`, five bytes,
against a length prefix of 2), not the claimed `$2\r\nhi\r\n`. -/
theorem text_encodes_as_repr_bulk :
    _write (PyVal.str "hi") = utf8 "$2\r\nb'hi'\r\n" ∧
    _write (PyVal.str "hi") ≠ utf8 "$2\r\nhi\r\n" ∧
    (∀ s : String, (_write (PyVal.str s)).head? = some 36) := by
  refine ⟨by decide, by decide, ?_⟩
  intro s
  simp only [_write, bulkBytes, utf8_append, utf8_dollar, List.singleton_append,
    List.cons_append, List.append_assoc, List.head?]

/-- C10.  `GET` and `MGET` never modify the store: through the
dispatcher with any argument list (right or wrong arity) and at the
operation level with any keys, the dict after the call is the dict
before it. -/
theorem get_mget_preserve_store :
    ∀ (kv : Store) (args : List PyVal),
      (get_response kv (PyVal.list (PyVal.str "GET" :: args))).2 = kv ∧
      (get_response kv (PyVal.list (PyVal.str "MGET" :: args))).2 = kv ∧
      (∀ key, (Server.get kv key).2 = kv) ∧
      (Server.mget kv args).2 = kv := by
  intro kv args
  refine ⟨?_, rfl, fun _ => rfl, rfl⟩
  rcases args with _ | ⟨k, _ | ⟨k2, rest⟩⟩ <;> rfl

end BuildRedis
